import Mathlib

/- Verification of the buffered forwarding client of fluent-forward-go
   (fluent/client/buffered_client.go, the only source file) against its
   design document.

   The development has two parts.

   1. A sequential embedding of the client operations: `Send`, `SendRaw`,
      `Sync`, the `Connect` precondition, and the configuration defaults
      applied by `NewBufferedClient`.  The base client (`Client`,
      `checkAck`, session management — file client.go, not part of the
      given source) and the msgp writer are external collaborators; they
      are embedded continuation-style (`SendOutcome.ackWait`,
      `ConnectOutcome.delegatedToBase`) or modelled from the spec's
      interface contract where noted.

   2. A small-step concurrent model of the flush scheduler: the
      `flushLoop` goroutine(s), the `Stop` caller, and the ticker,
      faithful to Go semantics: `close` of an already-closed channel
      panics, a `time.Ticker` delivers ticks into a one-slot buffered
      channel which `Ticker.Stop` does not drain, and `select` chooses
      nondeterministically among the ready cases.  The model bounds the
      number of `Connect` calls at two (the initial connection plus one
      reconnection), which is enough state for every claim considered.
-/

namespace FluentBuffered

/-- Error taxonomy of buffered_client.go.  The code returns
`errors.New` values; we name them after the design document's taxonomy:
`noActiveSession` = "no active session", `handshakeIncomplete` =
"session handshake not completed", `alreadyConnected` = "a session is
already active", `writeFailure` = an underlying transport write error,
`encodingFailure` = a record serialization / chunk rendering error. -/
inductive GoErr where
  | noActiveSession
  | handshakeIncomplete
  | alreadyConnected
  | writeFailure
  | encodingFailure
deriving DecidableEq

/-- Result of a Go call that may crash the goroutine: `crash` models a
runtime panic (nil-pointer dereference); `ok` is a normal return. -/
inductive GoResult (α : Type) where
  | crash : GoResult α
  | ok : α → GoResult α
deriving DecidableEq

/-- The base client's session object, as consumed by buffered_client.go:
only the `TransportPhase` flag is read (`bc.session.TransportPhase`). -/
structure Session where
  TransportPhase : Bool
deriving DecidableEq

/-- The buffered writer (`bc.writer`, a `*msgp.Writer` wrapping the
connection).  Modelled from the spec: the msgp writer is an external
dependency; §4.1 of the design document gives its contract (an internal
byte buffer of fixed capacity; `write` appends and flushes through when
capacity is reached; `flush` forces all buffered bytes out, and is a
no-op on an empty buffer).  `buf` holds buffered-but-unsent bytes,
`sent` the bytes already handed to the transport, `connBroken` whether
transport writes fail. -/
structure BWriter where
  cap : Nat
  buf : List Nat
  sent : List Nat
  connBroken : Bool
deriving DecidableEq

/-- `Flush` of the buffered writer (§4.1): success moves every buffered
byte to the transport; an empty buffer performs no transport write and
always succeeds; a broken connection yields a write failure. -/
def BWriter.flush (w : BWriter) : Except GoErr BWriter :=
  if w.buf.isEmpty then .ok w
  else if w.connBroken then .error .writeFailure
  else .ok { w with buf := [], sent := w.sent ++ w.buf }

/-- `Write` of the buffered writer (§4.1): bytes that fit are appended
to the buffer with no transport activity; when capacity would be
exceeded the buffer is flushed through first, and an oversized payload
goes to the transport directly.  Returns (bytes accepted, error) and the
updated writer. -/
def BWriter.write (w : BWriter) (m : List Nat) : (Nat × Option GoErr) × BWriter :=
  if w.buf.length + m.length ≤ w.cap then ((m.length, none), { w with buf := w.buf ++ m })
  else
    match w.flush with
    | .error e => ((0, some e), w)
    | .ok w2 =>
      if m.length ≤ w2.cap then ((m.length, none), { w2 with buf := m })
      else ((m.length, none), { w2 with sent := w2.sent ++ m })

/-- The process-wide metrics accumulator: the package-level counters
`totalBytesWritten`, `totalWriteTimeNs`, `totalWriteTimeMs`,
`writeCount` updated with `atomic.AddInt64` in `SendRaw`. -/
structure Metrics where
  totalBytesWritten : Nat
  totalWriteTimeNs : Nat
  totalWriteTimeMs : Nat
  writeCount : Nat
deriving DecidableEq

/-- The state of a `BufferedClient` visible to the sequential
operations: `session` (owned by the embedded base client; `none` iff no
session is active), the buffered writer `writer` (`none` until `connect`
installs it), the `RequireAck` flag, and the metrics counters. -/
structure CState where
  session : Option Session
  writer : Option BWriter
  RequireAck : Bool
  metrics : Metrics
deriving DecidableEq

/-- A record passed to `Send` (a `protocol.ChunkEncoder`): it can render
a correlation token (`Chunk()`) and serialize itself (`EncodeMsg`).
Both may fail; the token is abstracted to a `Nat`, the serialized form
to its byte sequence. -/
structure Record where
  chunkResult : Except GoErr Nat
  encodeResult : Except GoErr (List Nat)

/-- Outcome of `Send`.  The acknowledgment check (`bc.checkAck`, base
client code outside the given source) is not entered: `ackWait tok c`
means the call reached the blocking `checkAck(tok)` with client state
`c` — everything before that point is code of buffered_client.go.
`crash` models a nil-writer dereference. -/
inductive SendOutcome where
  | errorOut : GoErr → CState → SendOutcome
  | ackWait : Nat → CState → SendOutcome
  | okDone : CState → SendOutcome
  | crash : SendOutcome
deriving DecidableEq

/-- `BufferedClient.Send` (buffered_client.go lines 177-215), up to the
call of `checkAck`:
session-nil check, transport-phase check, then (when `RequireAck`) the
chunk token is rendered and the ack lock taken, then the record is
encoded into `bc.writer`, and finally — with `RequireAck` — the call
blocks in `checkAck(chunk)`.  Note that no flush of the writer happens
between encoding and `checkAck`. -/
def Send (c : CState) (r : Record) : SendOutcome :=
  match c.session with
  | none => .errorOut .noActiveSession c
  | some sess =>
    if sess.TransportPhase = false then .errorOut .handshakeIncomplete c
    else if c.RequireAck then
      match r.chunkResult with
      | .error e => .errorOut e c
      | .ok tok =>
        match c.writer with
        | none => .crash
        | some w =>
          match r.encodeResult with
          | .error e => .errorOut e c
          | .ok bytes =>
            match w.write bytes with
            | ((_, some e), w2) => .errorOut e { c with writer := some w2 }
            | ((_, none), w2) => .ackWait tok { c with writer := some w2 }
    else
      match c.writer with
      | none => .crash
      | some w =>
        match r.encodeResult with
        | .error e => .errorOut e c
        | .ok bytes =>
          match w.write bytes with
          | ((_, some e), w2) => .errorOut e { c with writer := some w2 }
          | ((_, none), w2) => .okDone { c with writer := some w2 }

/-- `BufferedClient.SendRaw` (buffered_client.go lines 149-175):
session-nil check, transport-phase check, then the bytes are written
into `bc.writer` and the four metrics counters are updated
unconditionally before the write error (if any) is returned.
`elapsedNs` stands for the measured wall-clock duration of the write
(real time is not modelled; the duration is an arbitrary input). -/
def SendRaw (c : CState) (m : List Nat) (elapsedNs : Nat) :
    GoResult (Except GoErr Unit × CState) :=
  match c.session with
  | none => .ok (.error .noActiveSession, c)
  | some sess =>
    if sess.TransportPhase = false then .ok (.error .handshakeIncomplete, c)
    else
      match c.writer with
      | none => .crash
      | some w =>
        match w.write m with
        | ((n, res), w2) =>
          let mets : Metrics :=
            { totalBytesWritten := c.metrics.totalBytesWritten + n
              totalWriteTimeNs := c.metrics.totalWriteTimeNs + elapsedNs
              totalWriteTimeMs := c.metrics.totalWriteTimeMs + elapsedNs / 1000000
              writeCount := c.metrics.writeCount + 1 }
          .ok ((match res with | some e => .error e | none => .ok ()),
               { c with writer := some w2, metrics := mets })

/-- `BufferedClient.Sync` (buffered_client.go lines 110-116): under the
adapter mutex, `return bc.writer.Flush()`.  When `bc.writer` is nil
(no `connect` has installed it) the `Flush` call dereferences a nil
`*msgp.Writer` and panics, modelled as `crash`.  The mutex is irrelevant
in this single-thread view (the concurrent model below covers it). -/
def Sync (c : CState) : GoResult (Except GoErr Unit × CState) :=
  match c.writer with
  | none => .crash
  | some w =>
    match w.flush with
    | .error e => .ok (.error e, c)
    | .ok w2 => .ok (.ok (), { c with writer := some w2 })

/-- Outcome of `BufferedClient.Connect` (buffered_client.go lines
129-138): with an active session it returns the "a session is already
active" error without touching any state; otherwise it delegates to the
base client's connection establishment (client.go, outside the given
source), embedded continuation-style. -/
inductive ConnectOutcome where
  | errorOut : GoErr → CState → ConnectOutcome
  | delegatedToBase : CState → ConnectOutcome
deriving DecidableEq

/-- `BufferedClient.Connect`: the session-already-active precondition
check performed under the session lock. -/
def Connect (c : CState) : ConnectOutcome :=
  match c.session with
  | some _ => .errorOut .alreadyConnected c
  | none => .delegatedToBase c

/-- The two events `flushLoop`'s `select` can wake on. -/
inductive LoopEvent where
  | tick
  | stopSignal
deriving DecidableEq

/-- What the loop body decides to do next. -/
inductive LoopCtl where
  | keepRunning
  | exitLoop
deriving DecidableEq

/-- The body of one `flushLoop` iteration (buffered_client.go lines
97-108): on a ticker tick it runs `_ = bc.Sync()` — the result, passed
here as `syncResult`, is discarded and the loop continues; on the stop
signal it returns. -/
def flushLoopBody (ev : LoopEvent) (_syncResult : Except GoErr Unit) : LoopCtl :=
  match ev with
  | .tick => .keepRunning
  | .stopSignal => .exitLoop

/-- `defaultBufferSize` (buffered_client.go line 15): 1 MiB. -/
def defaultBufferSize : Nat := 1024 * 1024

/-- `defaultFlushInterval` (buffered_client.go line 16):
`30 * time.Second`, in nanoseconds (a Go `time.Duration` counts
nanoseconds; `time.Second = 1e9`). -/
def defaultFlushInterval : Nat := 30 * 1000000000

/-- The options accepted by `NewBufferedClient`
(`BufferedClientConnectionOptions`, buffered_client.go lines 30-34),
flattening the embedded `ConnectionOptions`.  The connection factory and
auth info carry no logic relevant here and are reduced to presence
flags; durations are nanosecond counts. -/
structure BufferedClientConnectionOptions where
  FactoryProvided : Bool
  ConnectionTimeout : Nat
  RequireAck : Bool
  BufferSize : Nat
  FlushInterval : Nat
deriving DecidableEq

/-- The configuration a constructed `BufferedClient` ends up with, plus
its initial sequential state (no session, nil writer, and the scheduler
channels freshly created — the concurrent model's `initState`). -/
structure BufferedClient where
  bufferSize : Nat
  flushInterval : Nat
  connectionTimeout : Nat
  RequireAck : Bool
  state : CState
deriving DecidableEq

/-- `NewBufferedClient` (buffered_client.go lines 36-95): zero-valued
options are replaced by the defaults (`ConnectionTimeout` by
`DefaultConnectionTimeout`, a constant of client.go outside the given
source, passed here as a parameter; `BufferSize` by `defaultBufferSize`;
`FlushInterval` by `defaultFlushInterval`); non-zero options are used
unchanged.  The metrics-reporting goroutine it also spawns only reads
the counters and prints; it is not modelled. -/
def NewBufferedClient (DefaultConnectionTimeout : Nat)
    (opts : BufferedClientConnectionOptions) : BufferedClient :=
  { bufferSize := if opts.BufferSize = 0 then defaultBufferSize else opts.BufferSize
    flushInterval := if opts.FlushInterval = 0 then defaultFlushInterval else opts.FlushInterval
    connectionTimeout :=
      if opts.ConnectionTimeout = 0 then DefaultConnectionTimeout else opts.ConnectionTimeout
    RequireAck := opts.RequireAck
    state :=
      { session := none, writer := none, RequireAck := opts.RequireAck
        metrics := ⟨0, 0, 0, 0⟩ } }

/-!  The concurrent model.

A state of the scheduler subsystem tracks the ticker, the two channels
`bc.stop` and `bc.done` (created once in `NewBufferedClient` and never
re-created), the adapter mutex `bc.mutex`, up to two `flushLoop`
goroutine instances (`connect` spawns one per successful connection; the
model allows the initial connection and one reconnection), and the
caller thread, which serially invokes `Connect` / `Disconnect` / `Stop`.

Modelled from the spec: `Client.Disconnect` (base client, client.go,
outside the given source) terminates the connection and clears the
session, so a later `Connect` passes its session-nil precondition; it
neither flushes nor stops the scheduler (§4.3).  `Client.connect` is
assumed to succeed when attempted; `BufferedClient.connect`
(buffered_client.go lines 245-257) then installs the writer and spawns
`go bc.flushLoop()`.
-/

/-- Who holds `bc.mutex`. -/
inductive MOwner where
  | free
  | loop1
  | loop2
  | stopper
deriving DecidableEq

/-- Program counter of one `flushLoop` goroutine instance:
`selecting` = blocked in the `select`; `syncLock` = took the tick case
and is acquiring `bc.mutex` inside `Sync`; `syncFlush` = holds the mutex
and will flush and release; `closingDone` = returned from the loop and
is running the deferred `close(bc.done)`; `panicked` = that close hit an
already-closed channel. -/
inductive LoopPC where
  | notStarted
  | selecting
  | syncLock
  | syncFlush
  | closingDone
  | exited
  | panicked
deriving DecidableEq

/-- Program counter of the caller thread inside `Stop` (buffered_client.go
lines 118-125): `stopAcq` = acquiring `bc.mutex`; `stopDisarm` = holds
the mutex, about to run `bc.ticker.Stop()`; `stopClose` = about to run
`close(bc.stop)`; `stopWait` = blocked in `<-bc.done` — still holding
the mutex, since its release is deferred to the return of `Stop`;
`panicked` = `close(bc.stop)` hit an already-closed channel. -/
inductive CallerPC where
  | idle
  | stopAcq
  | stopDisarm
  | stopClose
  | stopWait
  | panicked
deriving DecidableEq

/-- Global state of the scheduler subsystem. -/
structure SchedSt where
  tickerArmed : Bool
  tickPending : Bool
  stopClosed : Bool
  doneClosed : Bool
  stopReturned : Bool
  sessionActive : Bool
  mutexOwner : MOwner
  loop1 : LoopPC
  loop2 : LoopPC
  caller : CallerPC
deriving DecidableEq

/-- Positional constructor, used for the concrete execution traces. -/
def mkSt (tickerArmed tickPending stopClosed doneClosed stopReturned sessionActive : Bool)
    (mutexOwner : MOwner) (loop1 loop2 : LoopPC) (caller : CallerPC) : SchedSt :=
  ⟨tickerArmed, tickPending, stopClosed, doneClosed, stopReturned, sessionActive,
   mutexOwner, loop1, loop2, caller⟩

/-- State right after `NewBufferedClient`: the ticker is already armed
(`time.NewTicker` runs at construction), both channels are open, no
session, no flush loop spawned yet, caller idle. -/
def initState : SchedSt :=
  mkSt true false false false false false .free .notStarted .notStarted .idle

/-- The ticker fires: a tick is deposited in the one-slot channel buffer.
A tick arriving while one is already pending is dropped (Go's ticker
performs a non-blocking send), so that case is a no-op. -/
def fireStep (s : SchedSt) : List SchedSt :=
  if s.tickerArmed = true ∧ s.tickPending = false then [{ s with tickPending := true }] else []

/-- Steps of the first `flushLoop` instance.  In `selecting`, both a
pending tick and a closed stop channel are ready cases and `select` may
take either; taking the tick case enters `bc.Sync()`, whose flush result
is discarded (`_ = bc.Sync()`) — the loop continues regardless, so the
`syncFlush` step returns to `selecting` unconditionally. -/
def loop1Steps (s : SchedSt) : List SchedSt :=
  match s.loop1 with
  | .notStarted => []
  | .selecting =>
    (if s.tickPending = true then [{ s with tickPending := false, loop1 := .syncLock }] else []) ++
    (if s.stopClosed = true then [{ s with loop1 := .closingDone }] else [])
  | .syncLock =>
    if s.mutexOwner = .free then [{ s with mutexOwner := .loop1, loop1 := .syncFlush }] else []
  | .syncFlush => [{ s with mutexOwner := .free, loop1 := .selecting }]
  | .closingDone =>
    if s.doneClosed = true then [{ s with loop1 := .panicked }]
    else [{ s with doneClosed := true, loop1 := .exited }]
  | .exited => []
  | .panicked => []

/-- Steps of the second `flushLoop` instance (spawned by a reconnect). -/
def loop2Steps (s : SchedSt) : List SchedSt :=
  match s.loop2 with
  | .notStarted => []
  | .selecting =>
    (if s.tickPending = true then [{ s with tickPending := false, loop2 := .syncLock }] else []) ++
    (if s.stopClosed = true then [{ s with loop2 := .closingDone }] else [])
  | .syncLock =>
    if s.mutexOwner = .free then [{ s with mutexOwner := .loop2, loop2 := .syncFlush }] else []
  | .syncFlush => [{ s with mutexOwner := .free, loop2 := .selecting }]
  | .closingDone =>
    if s.doneClosed = true then [{ s with loop2 := .panicked }]
    else [{ s with doneClosed := true, loop2 := .exited }]
  | .exited => []
  | .panicked => []

/-- Steps of the caller thread.  From `idle` it may call `Connect`
(succeeding only without an active session; a success spawns a fresh
`flushLoop` — the model provides two instances, and with
`single = true` reconnection is disabled), `Disconnect` (modelled from
the spec: clears the session, nothing else), or `Stop`.  `Stop` runs
lines 118-125: lock the mutex, `ticker.Stop()`, `close(bc.stop)` —
a panic if `bc.stop` is already closed, the deferred unlock running
during the unwind — then block in `<-bc.done`; the deferred unlock
releases the mutex only when `Stop` returns, at which point
`stopReturned` is set. -/
def callerSteps (single : Bool) (s : SchedSt) : List SchedSt :=
  match s.caller with
  | .idle =>
    (if s.sessionActive = false ∧ s.loop1 = .notStarted then
      [{ s with sessionActive := true, loop1 := .selecting }]
     else if s.sessionActive = false ∧ single = false ∧ s.loop2 = .notStarted then
      [{ s with sessionActive := true, loop2 := .selecting }]
     else []) ++
    (if s.sessionActive = true then [{ s with sessionActive := false }] else []) ++
    [{ s with caller := .stopAcq }]
  | .stopAcq =>
    if s.mutexOwner = .free then [{ s with mutexOwner := .stopper, caller := .stopDisarm }] else []
  | .stopDisarm => [{ s with tickerArmed := false, caller := .stopClose }]
  | .stopClose =>
    if s.stopClosed = true then [{ s with mutexOwner := .free, caller := .panicked }]
    else [{ s with stopClosed := true, caller := .stopWait }]
  | .stopWait =>
    if s.doneClosed = true then
      [{ s with mutexOwner := .free, stopReturned := true, caller := .idle }]
    else []
  | .panicked => []

/-- The process has died of an unrecovered panic; no thread steps. -/
def crashedSt (s : SchedSt) : Prop :=
  s.caller = .panicked ∨ s.loop1 = .panicked ∨ s.loop2 = .panicked

instance (s : SchedSt) : Decidable (crashedSt s) := by
  unfold crashedSt; infer_instance

/-- All successor states: the interleaving of the ticker, the two loop
instances and the caller thread. -/
def nexts (single : Bool) (s : SchedSt) : List SchedSt :=
  if crashedSt s then []
  else fireStep s ++ loop1Steps s ++ loop2Steps s ++ callerSteps single s

/-- Reachability from the constructed state. -/
inductive Reach (single : Bool) : SchedSt → Prop where
  | refl : Reach single initState
  | step {s t : SchedSt} : Reach single s → t ∈ nexts single s → Reach single t

/-- `chainOk single s l` checks that `l` is a valid execution continuing
from `s` (each state a successor of the previous). -/
def chainOk (single : Bool) : SchedSt → List SchedSt → Bool
  | _, [] => true
  | s, t :: r => decide (t ∈ nexts single s) && chainOk single t r

/-- A step in which a `flushLoop` instance performs the flush inside
`bc.Sync()` (and releases the mutex, returning to its `select`). -/
def flushStep (s t : SchedSt) : Prop :=
  (s.loop1 = .syncFlush ∧ t.loop1 = .selecting) ∨
  (s.loop2 = .syncFlush ∧ t.loop2 = .selecting)

/-- The inductive invariant of the scheduler subsystem. -/
def Inv (s : SchedSt) : Prop :=
  (s.stopReturned = true → s.stopClosed = true ∧ s.doneClosed = true ∧ s.tickerArmed = false) ∧
  (s.caller = .stopWait →
    s.stopClosed = true ∧ s.tickerArmed = false ∧ s.mutexOwner = .stopper) ∧
  (s.caller = .stopClose → s.tickerArmed = false ∧ s.mutexOwner = .stopper) ∧
  (s.caller = .stopDisarm → s.mutexOwner = .stopper) ∧
  (s.loop1 = .syncFlush → s.mutexOwner = .loop1) ∧
  (s.loop2 = .syncFlush → s.mutexOwner = .loop2)

instance (s : SchedSt) : Decidable (Inv s) := by
  unfold Inv; infer_instance

/-- Additional invariant of the system restricted to a single `Connect`
(no reconnection): only the first loop instance ever runs, and once
`bc.done` is closed that instance has left its loop for good. -/
def InvS (s : SchedSt) : Prop :=
  s.loop2 = .notStarted ∧
  (s.doneClosed = true → s.loop1 = .exited ∨ s.loop1 = .panicked)

instance (s : SchedSt) : Decidable (InvS s) := by
  unfold InvS; infer_instance

/-!  Concrete executions.

Trace A drives the system into the deadlock of `Stop` against the
scheduled flush: connect, a tick fires, the loop takes the tick case and
enters `Sync`, then the caller invokes `Stop`, acquires the mutex,
disarms the ticker and closes `bc.stop` — and now blocks in `<-bc.done`
while still holding the mutex the loop needs.

Trace B exhibits a flush after `Stop` has returned: connect, a tick
fires and stays pending while the loop takes the stop case and exits,
`Stop` returns, the caller disconnects and reconnects; the fresh loop's
`select` finds both the stale tick and the closed stop channel ready,
takes the tick, and flushes.

Trace C completes one full `Stop` (the loop exits via the stop case) and
then begins a second `Stop`, reaching its `close(bc.stop)`.
-/

def aSt1 : SchedSt := mkSt true false false false false true .free .selecting .notStarted .idle
def aSt2 : SchedSt := mkSt true true false false false true .free .selecting .notStarted .idle
def aSt3 : SchedSt := mkSt true false false false false true .free .syncLock .notStarted .idle
def aSt4 : SchedSt := mkSt true false false false false true .free .syncLock .notStarted .stopAcq
def aSt5 : SchedSt := mkSt true false false false false true .stopper .syncLock .notStarted .stopDisarm
def aSt6 : SchedSt := mkSt false false false false false true .stopper .syncLock .notStarted .stopClose
def aSt7 : SchedSt := mkSt false false true false false true .stopper .syncLock .notStarted .stopWait

def traceA : List SchedSt := [aSt1, aSt2, aSt3, aSt4, aSt5, aSt6, aSt7]

def bSt3 : SchedSt := mkSt true true false false false true .free .selecting .notStarted .stopAcq
def bSt4 : SchedSt := mkSt true true false false false true .stopper .selecting .notStarted .stopDisarm
def bSt5 : SchedSt := mkSt false true false false false true .stopper .selecting .notStarted .stopClose
def bSt6 : SchedSt := mkSt false true true false false true .stopper .selecting .notStarted .stopWait
def bSt7 : SchedSt := mkSt false true true false false true .stopper .closingDone .notStarted .stopWait
def bSt8 : SchedSt := mkSt false true true true false true .stopper .exited .notStarted .stopWait
def bSt9 : SchedSt := mkSt false true true true true true .free .exited .notStarted .idle
def bSt10 : SchedSt := mkSt false true true true true false .free .exited .notStarted .idle
def bSt11 : SchedSt := mkSt false true true true true true .free .exited .selecting .idle
def bSt12 : SchedSt := mkSt false false true true true true .free .exited .syncLock .idle
def bSt13 : SchedSt := mkSt false false true true true true .loop2 .exited .syncFlush .idle
def bSt14 : SchedSt := mkSt false false true true true true .free .exited .selecting .idle

def traceB : List SchedSt :=
  [aSt1, aSt2, bSt3, bSt4, bSt5, bSt6, bSt7, bSt8, bSt9, bSt10, bSt11, bSt12, bSt13]

def cSt2 : SchedSt := mkSt true false false false false true .free .selecting .notStarted .stopAcq
def cSt3 : SchedSt := mkSt true false false false false true .stopper .selecting .notStarted .stopDisarm
def cSt4 : SchedSt := mkSt false false false false false true .stopper .selecting .notStarted .stopClose
def cSt5 : SchedSt := mkSt false false true false false true .stopper .selecting .notStarted .stopWait
def cSt6 : SchedSt := mkSt false false true false false true .stopper .closingDone .notStarted .stopWait
def cSt7 : SchedSt := mkSt false false true true false true .stopper .exited .notStarted .stopWait
def cSt8 : SchedSt := mkSt false false true true true true .free .exited .notStarted .idle
def cSt9 : SchedSt := mkSt false false true true true true .free .exited .notStarted .stopAcq
def cSt10 : SchedSt := mkSt false false true true true true .stopper .exited .notStarted .stopDisarm
def cSt11 : SchedSt := mkSt false false true true true true .stopper .exited .notStarted .stopClose

def traceC : List SchedSt :=
  [aSt1, cSt2, cSt3, cSt4, cSt5, cSt6, cSt7, cSt8, cSt9, cSt10, cSt11]

def traceCs : List SchedSt := [aSt1, cSt2, cSt3, cSt4, cSt5, cSt6, cSt7, cSt8]

/-- Every state on a valid chain out of a reachable state is reachable. -/
theorem chain_reach (single : Bool) :
    ∀ (l : List SchedSt) (s : SchedSt), Reach single s → chainOk single s l = true →
      ∀ t ∈ l, Reach single t := by
  intro l
  induction l with
  | nil => intro s _ _ t ht; cases ht
  | cons a r ih =>
    intro s hs hc t ht
    simp only [chainOk, Bool.and_eq_true, decide_eq_true_eq] at hc
    obtain ⟨h1, h2⟩ := hc
    have ha : Reach single a := Reach.step hs h1
    cases ht with
    | head => exact ha
    | tail _ ht2 => exact ih a ha h2 t ht2

/-- One-step preservation: the invariant `Inv` is preserved, together
with the monotone facts (the ticker is never re-armed, `stopReturned` is
never unset, no new tick appears while the ticker is disarmed), the
one-step behaviour of the second loop instance facing a closed stop
channel, and preservation of `InvS` in the single-connect system. -/
theorem step_master (single : Bool) {s t : SchedSt} (hs : Inv s) (ht : t ∈ nexts single s) :
    Inv t
    ∧ (s.tickerArmed = false → t.tickerArmed = false)
    ∧ (s.stopReturned = true → t.stopReturned = true)
    ∧ (s.tickerArmed = false → s.tickPending = false → t.tickPending = false)
    ∧ (s.stopClosed = true → s.loop2 = .selecting → s.tickPending = false →
        t.loop2 = .selecting ∨ t.loop2 = .closingDone)
    ∧ (s.doneClosed = true → s.loop2 = .closingDone →
        t.loop2 = .closingDone ∨ t.loop2 = .panicked)
    ∧ (single = true → s.loop2 = .notStarted → t.loop2 = .notStarted)
    ∧ (single = true → s.loop2 = .notStarted →
        (s.doneClosed = true → s.loop1 = .exited ∨ s.loop1 = .panicked) →
        t.doneClosed = true → t.loop1 = .exited ∨ t.loop1 = .panicked) := by
  obtain ⟨hA, hB, hC, hD, hE, hF⟩ := hs
  unfold nexts at ht
  split at ht
  · cases ht
  · simp only [List.mem_append] at ht
    rcases ht with ((hf | h1) | h2) | hc
    · unfold fireStep at hf
      split at hf
      · simp only [List.mem_singleton] at hf
        subst hf
        refine ⟨⟨fun h => ?_, fun h => ?_, fun h => ?_, fun h => ?_, fun h => ?_, fun h => ?_⟩,
          fun h => ?_, fun h => ?_, fun h h2 => ?_, fun h h2 h3 => ?_, fun h h2 => ?_,
          fun h h2 => ?_, fun h h2 h3 h4 => ?_⟩ <;> simp_all
      · cases hf
    · unfold loop1Steps at h1
      split at h1
      · cases h1
      · simp only [List.mem_append] at h1
        rcases h1 with h1 | h1
        · split at h1
          · simp only [List.mem_singleton] at h1
            subst h1
            refine ⟨⟨fun h => ?_, fun h => ?_, fun h => ?_, fun h => ?_, fun h => ?_,
              fun h => ?_⟩, fun h => ?_, fun h => ?_, fun h h2 => ?_, fun h h2 h3 => ?_,
              fun h h2 => ?_, fun h h2 => ?_, fun h h2 h3 h4 => ?_⟩ <;> simp_all
          · cases h1
        · split at h1
          · simp only [List.mem_singleton] at h1
            subst h1
            refine ⟨⟨fun h => ?_, fun h => ?_, fun h => ?_, fun h => ?_, fun h => ?_,
              fun h => ?_⟩, fun h => ?_, fun h => ?_, fun h h2 => ?_, fun h h2 h3 => ?_,
              fun h h2 => ?_, fun h h2 => ?_, fun h h2 h3 h4 => ?_⟩ <;> simp_all
          · cases h1
      · split at h1
        · simp only [List.mem_singleton] at h1
          subst h1
          refine ⟨⟨fun h => ?_, fun h => ?_, fun h => ?_, fun h => ?_, fun h => ?_,
            fun h => ?_⟩, fun h => ?_, fun h => ?_, fun h h2 => ?_, fun h h2 h3 => ?_,
            fun h h2 => ?_, fun h h2 => ?_, fun h h2 h3 h4 => ?_⟩ <;> simp_all
        · cases h1
      · simp only [List.mem_singleton] at h1
        subst h1
        refine ⟨⟨fun h => ?_, fun h => ?_, fun h => ?_, fun h => ?_, fun h => ?_,
          fun h => ?_⟩, fun h => ?_, fun h => ?_, fun h h2 => ?_, fun h h2 h3 => ?_,
          fun h h2 => ?_, fun h h2 => ?_, fun h h2 h3 h4 => ?_⟩ <;> simp_all
      · split at h1
        · simp only [List.mem_singleton] at h1
          subst h1
          refine ⟨⟨fun h => ?_, fun h => ?_, fun h => ?_, fun h => ?_, fun h => ?_,
            fun h => ?_⟩, fun h => ?_, fun h => ?_, fun h h2 => ?_, fun h h2 h3 => ?_,
            fun h h2 => ?_, fun h h2 => ?_, fun h h2 h3 h4 => ?_⟩ <;> simp_all
        · simp only [List.mem_singleton] at h1
          subst h1
          refine ⟨⟨fun h => ?_, fun h => ?_, fun h => ?_, fun h => ?_, fun h => ?_,
            fun h => ?_⟩, fun h => ?_, fun h => ?_, fun h h2 => ?_, fun h h2 h3 => ?_,
            fun h h2 => ?_, fun h h2 => ?_, fun h h2 h3 h4 => ?_⟩ <;> simp_all
      · cases h1
      · cases h1
    · unfold loop2Steps at h2
      split at h2
      · cases h2
      · simp only [List.mem_append] at h2
        rcases h2 with h2 | h2
        · split at h2
          · simp only [List.mem_singleton] at h2
            subst h2
            refine ⟨⟨fun h => ?_, fun h => ?_, fun h => ?_, fun h => ?_, fun h => ?_,
              fun h => ?_⟩, fun h => ?_, fun h => ?_, fun h h2 => ?_, fun h h2 h3 => ?_,
              fun h h2 => ?_, fun h h2 => ?_, fun h h2 h3 h4 => ?_⟩ <;> simp_all
          · cases h2
        · split at h2
          · simp only [List.mem_singleton] at h2
            subst h2
            refine ⟨⟨fun h => ?_, fun h => ?_, fun h => ?_, fun h => ?_, fun h => ?_,
              fun h => ?_⟩, fun h => ?_, fun h => ?_, fun h h2 => ?_, fun h h2 h3 => ?_,
              fun h h2 => ?_, fun h h2 => ?_, fun h h2 h3 h4 => ?_⟩ <;> simp_all
          · cases h2
      · split at h2
        · simp only [List.mem_singleton] at h2
          subst h2
          refine ⟨⟨fun h => ?_, fun h => ?_, fun h => ?_, fun h => ?_, fun h => ?_,
            fun h => ?_⟩, fun h => ?_, fun h => ?_, fun h h2 => ?_, fun h h2 h3 => ?_,
            fun h h2 => ?_, fun h h2 => ?_, fun h h2 h3 h4 => ?_⟩ <;> simp_all
        · cases h2
      · simp only [List.mem_singleton] at h2
        subst h2
        refine ⟨⟨fun h => ?_, fun h => ?_, fun h => ?_, fun h => ?_, fun h => ?_,
          fun h => ?_⟩, fun h => ?_, fun h => ?_, fun h h2 => ?_, fun h h2 h3 => ?_,
          fun h h2 => ?_, fun h h2 => ?_, fun h h2 h3 h4 => ?_⟩ <;> simp_all
      · split at h2
        · simp only [List.mem_singleton] at h2
          subst h2
          refine ⟨⟨fun h => ?_, fun h => ?_, fun h => ?_, fun h => ?_, fun h => ?_,
            fun h => ?_⟩, fun h => ?_, fun h => ?_, fun h h2 => ?_, fun h h2 h3 => ?_,
            fun h h2 => ?_, fun h h2 => ?_, fun h h2 h3 h4 => ?_⟩ <;> simp_all
        · simp only [List.mem_singleton] at h2
          subst h2
          refine ⟨⟨fun h => ?_, fun h => ?_, fun h => ?_, fun h => ?_, fun h => ?_,
            fun h => ?_⟩, fun h => ?_, fun h => ?_, fun h h2 => ?_, fun h h2 h3 => ?_,
            fun h h2 => ?_, fun h h2 => ?_, fun h h2 h3 h4 => ?_⟩ <;> simp_all
      · cases h2
      · cases h2
    · unfold callerSteps at hc
      split at hc
      · simp only [List.mem_append, List.mem_singleton] at hc
        rcases hc with (hc | hc) | hc
        · split at hc
          · simp only [List.mem_singleton] at hc
            subst hc
            refine ⟨⟨fun h => ?_, fun h => ?_, fun h => ?_, fun h => ?_, fun h => ?_,
              fun h => ?_⟩, fun h => ?_, fun h => ?_, fun h h2 => ?_, fun h h2 h3 => ?_,
              fun h h2 => ?_, fun h h2 => ?_, fun h h2 h3 h4 => ?_⟩ <;> simp_all
          · split at hc
            · simp only [List.mem_singleton] at hc
              subst hc
              refine ⟨⟨fun h => ?_, fun h => ?_, fun h => ?_, fun h => ?_, fun h => ?_,
                fun h => ?_⟩, fun h => ?_, fun h => ?_, fun h h2 => ?_, fun h h2 h3 => ?_,
                fun h h2 => ?_, fun h h2 => ?_, fun h h2 h3 h4 => ?_⟩ <;> simp_all
            · cases hc
        · split at hc
          · simp only [List.mem_singleton] at hc
            subst hc
            refine ⟨⟨fun h => ?_, fun h => ?_, fun h => ?_, fun h => ?_, fun h => ?_,
              fun h => ?_⟩, fun h => ?_, fun h => ?_, fun h h2 => ?_, fun h h2 h3 => ?_,
              fun h h2 => ?_, fun h h2 => ?_, fun h h2 h3 h4 => ?_⟩ <;> simp_all
          · cases hc
        · subst hc
          refine ⟨⟨fun h => ?_, fun h => ?_, fun h => ?_, fun h => ?_, fun h => ?_,
            fun h => ?_⟩, fun h => ?_, fun h => ?_, fun h h2 => ?_, fun h h2 h3 => ?_,
            fun h h2 => ?_, fun h h2 => ?_, fun h h2 h3 h4 => ?_⟩ <;> simp_all
      · split at hc
        · simp only [List.mem_singleton] at hc
          subst hc
          refine ⟨⟨fun h => ?_, fun h => ?_, fun h => ?_, fun h => ?_, fun h => ?_,
            fun h => ?_⟩, fun h => ?_, fun h => ?_, fun h h2 => ?_, fun h h2 h3 => ?_,
            fun h h2 => ?_, fun h h2 => ?_, fun h h2 h3 h4 => ?_⟩ <;> simp_all
        · cases hc
      · simp only [List.mem_singleton] at hc
        subst hc
        refine ⟨⟨fun h => ?_, fun h => ?_, fun h => ?_, fun h => ?_, fun h => ?_,
          fun h => ?_⟩, fun h => ?_, fun h => ?_, fun h h2 => ?_, fun h h2 h3 => ?_,
          fun h h2 => ?_, fun h h2 => ?_, fun h h2 h3 h4 => ?_⟩ <;> simp_all
      · split at hc
        · simp only [List.mem_singleton] at hc
          subst hc
          refine ⟨⟨fun h => ?_, fun h => ?_, fun h => ?_, fun h => ?_, fun h => ?_,
            fun h => ?_⟩, fun h => ?_, fun h => ?_, fun h h2 => ?_, fun h h2 h3 => ?_,
            fun h h2 => ?_, fun h h2 => ?_, fun h h2 h3 h4 => ?_⟩ <;> simp_all
        · simp only [List.mem_singleton] at hc
          subst hc
          refine ⟨⟨fun h => ?_, fun h => ?_, fun h => ?_, fun h => ?_, fun h => ?_,
            fun h => ?_⟩, fun h => ?_, fun h => ?_, fun h h2 => ?_, fun h h2 h3 => ?_,
            fun h h2 => ?_, fun h h2 => ?_, fun h h2 h3 h4 => ?_⟩ <;> simp_all
      · split at hc
        · simp only [List.mem_singleton] at hc
          subst hc
          refine ⟨⟨fun h => ?_, fun h => ?_, fun h => ?_, fun h => ?_, fun h => ?_,
            fun h => ?_⟩, fun h => ?_, fun h => ?_, fun h h2 => ?_, fun h h2 h3 => ?_,
            fun h h2 => ?_, fun h h2 => ?_, fun h h2 h3 h4 => ?_⟩ <;> simp_all
        · cases hc
      · cases hc

/-- Every reachable state of the scheduler subsystem satisfies `Inv`. -/
theorem reach_inv (single : Bool) {s : SchedSt} (h : Reach single s) : Inv s := by
  induction h with
  | refl => unfold Inv initState mkSt; decide
  | step h1 h2 ih => exact (step_master _ ih h2).1

/-- In the single-connect system every reachable state satisfies `InvS`. -/
theorem reach_invS {s : SchedSt} (h : Reach true s) : InvS s := by
  induction h with
  | refl => unfold InvS initState mkSt; decide
  | step h1 h2 ih =>
    have hm := step_master true (reach_inv true h1) h2
    obtain ⟨-, -, -, -, -, -, m7a, m7b⟩ := hm
    exact ⟨m7a rfl ih.1, fun hd => m7b rfl ih.1 ih.2 hd⟩

/-!  Concrete fixtures used by the claim theorems and witnesses. -/

def optsZero : BufferedClientConnectionOptions := ⟨false, 0, false, 0, 0⟩

def optsCustom : BufferedClientConnectionOptions := ⟨true, 7, true, 512, 1000⟩

/-- A freshly constructed client: no session, nil writer. -/
def inactiveC : CState := (NewBufferedClient 5 optsZero).state

/-- An empty 1 KiB buffered writer over a healthy connection. -/
def ackWriter : BWriter := ⟨1024, [], [], false⟩

/-- A connected client past the transport phase, acks not required. -/
def activeC : CState :=
  { session := some ⟨true⟩, writer := some ackWriter, RequireAck := false,
    metrics := ⟨0, 0, 0, 0⟩ }

/-- A connected client past the transport phase, acks required. -/
def ackC : CState :=
  { session := some ⟨true⟩, writer := some ackWriter, RequireAck := true,
    metrics := ⟨0, 0, 0, 0⟩ }

/-- A record whose chunk token renders to 7 and whose encoding is the
3-byte sequence [1, 2, 3]. -/
def demoRecord : Record := ⟨.ok 7, .ok [1, 2, 3]⟩

/-- A writer holding one unflushed byte over a broken connection. -/
def brokenWriter : BWriter := ⟨8, [1], [], true⟩

/-- A connected client whose writer cannot reach the transport. -/
def brokenC : CState :=
  { session := some ⟨true⟩, writer := some brokenWriter, RequireAck := false,
    metrics := ⟨0, 0, 0, 0⟩ }

/-- C9: `NewBufferedClient` applies the documented configuration
defaults: a zero `BufferSize` becomes 1 MiB (1024*1024 bytes) and a
zero `FlushInterval` becomes 30 seconds (30e9 ns); non-zero supplied
values are used unchanged. -/
theorem newBufferedClient_defaults (DefaultConnectionTimeout : Nat)
    (opts : BufferedClientConnectionOptions) :
    (opts.BufferSize = 0 →
      (NewBufferedClient DefaultConnectionTimeout opts).bufferSize = 1024 * 1024)
    ∧ (opts.BufferSize ≠ 0 →
      (NewBufferedClient DefaultConnectionTimeout opts).bufferSize = opts.BufferSize)
    ∧ (opts.FlushInterval = 0 →
      (NewBufferedClient DefaultConnectionTimeout opts).flushInterval = 30 * 1000000000)
    ∧ (opts.FlushInterval ≠ 0 →
      (NewBufferedClient DefaultConnectionTimeout opts).flushInterval = opts.FlushInterval) := by
  refine ⟨fun h => ?_, fun h => ?_, fun h => ?_, fun h => ?_⟩ <;>
    simp [NewBufferedClient, defaultBufferSize, defaultFlushInterval, h]

/-- Witness for C9 at concrete option values. -/
theorem newBufferedClient_defaults_witness :
    (NewBufferedClient 5 optsZero).bufferSize = 1024 * 1024
    ∧ (NewBufferedClient 5 optsZero).flushInterval = 30 * 1000000000
    ∧ (NewBufferedClient 5 optsCustom).bufferSize = 512
    ∧ (NewBufferedClient 5 optsCustom).flushInterval = 1000 :=
  ⟨(newBufferedClient_defaults 5 optsZero).1 rfl,
   (newBufferedClient_defaults 5 optsZero).2.2.1 rfl,
   (newBufferedClient_defaults 5 optsCustom).2.1 (by decide),
   (newBufferedClient_defaults 5 optsCustom).2.2.2 (by decide)⟩

/-- C4: `Send` and `SendRaw` with no active session always return the
"no active session" error and leave the client state unchanged, and
`Connect` with an active session always returns the "a session is
already active" error and leaves the client state unchanged. -/
theorem send_connect_precondition_errors (c : CState) :
    (∀ r : Record, c.session = none → Send c r = .errorOut .noActiveSession c)
    ∧ (∀ (m : List Nat) (d : Nat), c.session = none →
        SendRaw c m d = .ok (.error .noActiveSession, c))
    ∧ (∀ sess : Session, c.session = some sess →
        Connect c = .errorOut .alreadyConnected c) := by
  refine ⟨fun r h => ?_, fun m d h => ?_, fun sess h => ?_⟩ <;>
    simp [Send, SendRaw, Connect, h]

/-- Witness for C4 at concrete client states. -/
theorem send_connect_precondition_errors_witness :
    Send inactiveC demoRecord = .errorOut .noActiveSession inactiveC
    ∧ SendRaw inactiveC [1, 2] 5 = .ok (.error .noActiveSession, inactiveC)
    ∧ Connect activeC = .errorOut .alreadyConnected activeC :=
  ⟨(send_connect_precondition_errors inactiveC).1 demoRecord rfl,
   (send_connect_precondition_errors inactiveC).2.1 [1, 2] 5 rfl,
   (send_connect_precondition_errors activeC).2.2 ⟨true⟩ rfl⟩

/-- C5 counterexample: `Sync` invoked on a freshly constructed client
(no `Connect` yet, so `bc.writer` is nil) dereferences the nil msgp
writer and panics instead of returning an error. -/
theorem sync_nil_writer_crashes :
    Sync (NewBufferedClient 5 optsZero).state = .crash := rfl

/-- C5 amended: `Send` while no session is active fails by returning an
error; `Sync` while the buffer adapter is null crashes on the nil
dereference rather than returning an error; `Sync` with a non-null
adapter returns normally (possibly an error value) and never crashes. -/
theorem inactive_send_errors_sync_crashes_on_nil (c : CState) :
    (∀ r : Record, c.session = none → Send c r = .errorOut .noActiveSession c)
    ∧ (c.writer = none → Sync c = .crash)
    ∧ (∀ w : BWriter, c.writer = some w → Sync c ≠ .crash) := by
  refine ⟨fun r h => ?_, fun h => ?_, fun w h => ?_⟩
  · simp [Send, h]
  · simp [Sync, h]
  · simp only [Sync, h]
    cases hw : w.flush <;> simp

/-- Witness for C5's amended statement at concrete client states. -/
theorem inactive_send_errors_sync_crashes_on_nil_witness :
    Send inactiveC demoRecord = .errorOut .noActiveSession inactiveC
    ∧ Sync inactiveC = .crash
    ∧ Sync activeC ≠ .crash :=
  ⟨(inactive_send_errors_sync_crashes_on_nil inactiveC).1 demoRecord rfl,
   (inactive_send_errors_sync_crashes_on_nil inactiveC).2.1 rfl,
   (inactive_send_errors_sync_crashes_on_nil activeC).2.2 ackWriter rfl⟩

/-- C6: a failed flush on a scheduler tick is suppressed — the loop
body discards the `Sync` result and keeps running, never exiting
because a flush failed — whereas a failed flush invoked directly
through `Sync` is returned to `Sync`'s caller. -/
theorem tick_flush_error_swallowed_sync_error_surfaced :
    (∀ r : Except GoErr Unit, flushLoopBody .tick r = .keepRunning)
    ∧ (∀ r : Except GoErr Unit, flushLoopBody .stopSignal r = .exitLoop)
    ∧ (∀ (c : CState) (w : BWriter) (e : GoErr),
        c.writer = some w → w.flush = .error e → Sync c = .ok (.error e, c))
    ∧ (∀ (c : CState) (w w2 : BWriter),
        c.writer = some w → w.flush = .ok w2 →
          Sync c = .ok (.ok (), { c with writer := some w2 })) := by
  refine ⟨fun r => rfl, fun r => rfl, fun c w e h hf => ?_, fun c w w2 h hf => ?_⟩ <;>
    simp [Sync, h, hf]

/-- Witness for C6: the tick outcome on a failed flush, and `Sync`
surfacing the write failure of a broken connection. -/
theorem tick_flush_error_swallowed_sync_error_surfaced_witness :
    flushLoopBody .tick (.error .writeFailure) = .keepRunning
    ∧ Sync brokenC = .ok (.error .writeFailure, brokenC) :=
  ⟨tick_flush_error_swallowed_sync_error_surfaced.1 (.error .writeFailure),
   tick_flush_error_swallowed_sync_error_surfaced.2.2.1 brokenC brokenWriter
     .writeFailure rfl rfl⟩

/-- C7 counterexample: a `SendRaw` call that fails the session
precondition returns without recording any metrics — its write count
stays 0 — so it is not the case that every `SendRaw` call records the
metrics exactly once. -/
theorem sendRaw_failed_precondition_records_no_metrics :
    SendRaw inactiveC [1, 2] 5 = .ok (.error .noActiveSession, inactiveC)
    ∧ inactiveC.metrics.writeCount = 0 := ⟨rfl, rfl⟩

/-- C7 amended: every `SendRaw` call that passes the session and
transport-phase precondition checks records the write-latency,
bytes-written and write-count metrics exactly once, regardless of
whether the write succeeds or fails; a call failing a precondition
check records nothing (it returns with the state unchanged). -/
theorem sendRaw_metrics_once_after_preconditions (c : CState) :
    (∀ (sess : Session) (w : BWriter) (m : List Nat) (d : Nat),
      c.session = some sess → sess.TransportPhase = true → c.writer = some w →
      ∃ (res : Except GoErr Unit) (c2 : CState),
        SendRaw c m d = .ok (res, c2)
        ∧ c2.metrics.writeCount = c.metrics.writeCount + 1
        ∧ c2.metrics.totalBytesWritten = c.metrics.totalBytesWritten + (w.write m).1.1
        ∧ c2.metrics.totalWriteTimeNs = c.metrics.totalWriteTimeNs + d
        ∧ c2.metrics.totalWriteTimeMs = c.metrics.totalWriteTimeMs + d / 1000000)
    ∧ (∀ (m : List Nat) (d : Nat), c.session = none →
        SendRaw c m d = .ok (.error .noActiveSession, c))
    ∧ (∀ (sess : Session) (m : List Nat) (d : Nat),
        c.session = some sess → sess.TransportPhase = false →
        SendRaw c m d = .ok (.error .handshakeIncomplete, c)) := by
  refine ⟨fun sess w m d h1 h2 h3 => ?_, fun m d h => by simp [SendRaw, h],
    fun sess m d h1 h2 => by simp [SendRaw, h1, h2]⟩
  rcases hw : w.write m with ⟨⟨n, res⟩, w2⟩
  simp only [SendRaw, h1, h2, h3, hw]
  exact ⟨_, _, rfl, rfl, rfl, rfl, rfl⟩

/-- Witness for C7's amended statement: a passing call on a connected
client, and a precondition-failing call that records nothing. -/
theorem sendRaw_metrics_once_after_preconditions_witness :
    (∃ (res : Except GoErr Unit) (c2 : CState),
      SendRaw activeC [9] 2000000 = .ok (res, c2)
      ∧ c2.metrics.writeCount = activeC.metrics.writeCount + 1
      ∧ c2.metrics.totalBytesWritten =
          activeC.metrics.totalBytesWritten + (ackWriter.write [9]).1.1
      ∧ c2.metrics.totalWriteTimeNs = activeC.metrics.totalWriteTimeNs + 2000000
      ∧ c2.metrics.totalWriteTimeMs = activeC.metrics.totalWriteTimeMs + 2000000 / 1000000)
    ∧ SendRaw inactiveC [3] 4 = .ok (.error .noActiveSession, inactiveC) :=
  ⟨(sendRaw_metrics_once_after_preconditions activeC).1 ⟨true⟩ ackWriter [9] 2000000
      rfl rfl rfl,
   (sendRaw_metrics_once_after_preconditions inactiveC).2.1 [3] 4 rfl⟩

/-- C2: evaluation at the failing input.  With `RequireAck` set, a
connected client and an empty 1024-byte buffer, sending a record that
encodes to 3 bytes reaches the blocking acknowledgment check
(`checkAck`) with the 3 bytes still sitting in the writer's buffer and
nothing written to the transport: `Send` performs no flush between
encoding and the acknowledgment check. -/
theorem send_requireAck_blocks_without_flush :
    Send ackC demoRecord =
      .ackWait 7 { ackC with writer := some ⟨1024, [1, 2, 3], [], false⟩ }
    ∧ (BWriter.mk 1024 [1, 2, 3] [] false).sent = []
    ∧ (BWriter.mk 1024 [1, 2, 3] [] false).buf = [1, 2, 3] := ⟨rfl, rfl, rfl⟩

/-- C1: evaluation at the failing interleaving.  `aSt7` is reachable:
`Connect`; a tick fires; the flush loop takes the tick case and is
acquiring `bc.mutex` inside `Sync`; the caller then runs `Stop` through
`close(bc.stop)`.  In `aSt7` the caller is blocked in `<-bc.done` while
still holding `bc.mutex` (the unlock is deferred to `Stop`'s return),
the loop is blocked acquiring that mutex, and no thread can step — a
deadlock.  This refutes the claim that `Stop` is never blocked on the
completion signal while holding the adapter mutex. -/
theorem stop_waits_on_done_holding_mutex_deadlock :
    Reach false aSt7
    ∧ aSt7.caller = .stopWait
    ∧ aSt7.mutexOwner = .stopper
    ∧ aSt7.loop1 = .syncLock
    ∧ nexts false aSt7 = [] :=
  ⟨chain_reach false traceA initState Reach.refl (by decide) aSt7 (by decide),
   rfl, rfl, rfl, by decide⟩

/-- C3 counterexample: a concrete execution in which a flush is
performed by the flush loop after `Stop` has returned.  A tick fired
before `ticker.Stop()` and stayed pending in the ticker channel's
one-slot buffer while the first loop exited via the stop case; after
`Stop` returned, `Disconnect` and a second `Connect` spawned a fresh
flush loop, whose `select` took the stale tick and flushed
(the step `bSt13 → bSt14`). -/
theorem flush_after_stop_returns_via_reconnect :
    Reach false bSt13
    ∧ bSt13.stopReturned = true
    ∧ bSt14 ∈ nexts false bSt13
    ∧ flushStep bSt13 bSt14 :=
  ⟨chain_reach false traceB initState Reach.refl (by decide) bSt13 (by decide),
   rfl, by decide, Or.inr ⟨rfl, rfl⟩⟩

/-- C3 amended: after `Stop()` returns the background flush task has
fully exited (`bc.done` is closed and the only loop instance has left
its loop); in the single-connect system — no reconnection ever — no
flush step is possible from any state reached after `Stop` returned,
and `stopReturned` persists across every step, so no flush is performed
by the flush loop at any time after the return of `Stop`. -/
theorem no_flush_after_stop_single_connect {s : SchedSt} (h : Reach true s)
    (hr : s.stopReturned = true) :
    s.doneClosed = true
    ∧ (s.loop1 = .exited ∨ s.loop1 = .panicked)
    ∧ s.loop2 = .notStarted
    ∧ (∀ t : SchedSt, ¬ flushStep s t)
    ∧ (∀ t ∈ nexts true s, t.stopReturned = true) := by
  have hi := reach_inv true h
  have his := reach_invS h
  have hd : s.doneClosed = true := (hi.1 hr).2.1
  have hl1 := his.2 hd
  refine ⟨hd, hl1, his.1, fun t hft => ?_, fun t ht => (step_master true hi ht).2.2.1 hr⟩
  rcases hft with ⟨h1, -⟩ | ⟨h2, -⟩
  · rcases hl1 with h3 | h3 <;> simp [h3] at h1
  · simp [his.1] at h2

/-- Witness for C3's amended statement at a concrete post-`Stop`
state of the single-connect system. -/
theorem no_flush_after_stop_single_connect_witness :
    cSt8.doneClosed = true
    ∧ cSt8.loop2 = .notStarted
    ∧ ¬ flushStep cSt8 initState := by
  have hmain := no_flush_after_stop_single_connect
    (chain_reach true traceCs initState Reach.refl (by decide) cSt8 (by decide)) rfl
  exact ⟨hmain.1, hmain.2.2.1, hmain.2.2.2.1 initState⟩

/-- C8: confirmed — there is no single-stop latch.  In every reachable
state in which one `Stop` has completed and a second `Stop` call has
reached its `close(bc.stop)` statement, the stop channel is already
closed and the caller's only possible step is the panic of closing an
already-closed channel (the deferred unlock releases the mutex during
the unwind). -/
theorem second_stop_closes_closed_channel {s : SchedSt} (h : Reach false s)
    (hr : s.stopReturned = true) (hc : s.caller = .stopClose) :
    s.stopClosed = true
    ∧ callerSteps false s = [{ s with mutexOwner := .free, caller := .panicked }] := by
  have hi := reach_inv false h
  have hsc : s.stopClosed = true := (hi.1 hr).1
  refine ⟨hsc, ?_⟩
  simp [callerSteps, hc, hsc]

/-- Witness for C8 at a concrete state in which a second `Stop` has
reached its `close(bc.stop)` after a first completed `Stop`. -/
theorem second_stop_closes_closed_channel_witness :
    cSt11.stopClosed = true
    ∧ callerSteps false cSt11 =
        [mkSt false false true true true true .free .exited .notStarted .panicked] := by
  have hmain := second_stop_closes_closed_channel
    (chain_reach false traceC initState Reach.refl (by decide) cSt11 (by decide)) rfl rfl
  exact ⟨hmain.1, hmain.2⟩

/-- C10 counterexample: the freshly spawned flush task need not
immediately observe the closed stop channel.  `bSt12` is reached after
a completed `Stop`, a `Disconnect` and a `Connect`; the new loop's
first action consumed the stale pending tick, putting it inside
`Sync` (`loop2 = syncLock`) before it ever observed `bc.stop`. -/
theorem reconnect_loop_handles_stale_tick_first :
    Reach false bSt12
    ∧ bSt12.stopReturned = true
    ∧ bSt12.stopClosed = true
    ∧ bSt12.loop2 = .syncLock :=
  ⟨chain_reach false traceB initState Reach.refl (by decide) bSt12 (by decide),
   rfl, rfl, rfl⟩

/-- C10 amended: the stop and done channels are created only once, at
construction, and never re-created — after `Stop` has returned, every
reachable state keeps `bc.stop` and `bc.done` closed and the ticker
disarmed; every further step preserves them, no new tick can appear
once none is pending, and a flush task spawned by a reconnect can only
remain in its `select` or take the stop case into the exit path whose
`close(bc.done)` panics: reconnecting after shutdown cannot yield a
working scheduler. -/
theorem reconnect_cannot_restart_scheduler {s : SchedSt} (h : Reach false s)
    (hr : s.stopReturned = true) :
    (s.stopClosed = true ∧ s.doneClosed = true ∧ s.tickerArmed = false)
    ∧ ∀ t ∈ nexts false s,
        t.tickerArmed = false
        ∧ t.stopReturned = true
        ∧ (s.tickPending = false → t.tickPending = false)
        ∧ (s.loop2 = .selecting → s.tickPending = false →
            t.loop2 = .selecting ∨ t.loop2 = .closingDone)
        ∧ (s.loop2 = .closingDone → t.loop2 = .closingDone ∨ t.loop2 = .panicked) := by
  have hi := reach_inv false h
  have hfacts := hi.1 hr
  refine ⟨hfacts, fun t ht => ?_⟩
  obtain ⟨-, m2, m3, m4, m5, m6, -, -⟩ := step_master false hi ht
  exact ⟨m2 hfacts.2.2, m3 hr, m4 hfacts.2.2,
    fun h2 h3 => m5 hfacts.1 h2 h3, fun h2 => m6 hfacts.2.1 h2⟩

/-- Witness for C10's amended statement at a concrete post-`Stop`
state and one of its concrete successor steps. -/
theorem reconnect_cannot_restart_scheduler_witness :
    (cSt8.stopClosed = true ∧ cSt8.doneClosed = true ∧ cSt8.tickerArmed = false)
    ∧ (mkSt false false true true true false .free .exited .notStarted .idle).stopReturned
        = true := by
  have hmain := reconnect_cannot_restart_scheduler
    (chain_reach false traceCs initState Reach.refl (by decide) cSt8 (by decide)) rfl
  refine ⟨hmain.1, ?_⟩
  have ht := hmain.2 (mkSt false false true true true false .free .exited .notStarted .idle)
    (by decide)
  exact ht.2.1

end FluentBuffered
